import Mathlib

/-!
Verification development for the `home-feeder` repository.

The definitions below are a shallow embedding of the Python source under
`src/software/`.  Floating-point weights and portions are modelled by `ℚ`;
timestamps carry the two observables the code reads from `datetime.now()`
— the calendar date (as an integer day number) and an absolute time in
whole minutes used for interval arithmetic.  External
collaborators (the servo actuator, `psutil` metric collectors, the
temperature files) are modelled by explicit result parameters
(`Bool` / `Option ℚ`), exactly as the code consumes them.
-/

namespace HomeFeeder

/-- The two observables of `datetime.now()` the feeding code uses:
`date` is `now.date()` (a day number) and `minutes` is absolute time in
whole minutes, so that `now - last_feeding_time >= timedelta(minutes=k)`
becomes `now.minutes - last ≥ k`.  Minute granularity matches the code:
the scheduler compares times formatted as `HH:MM` and every interval
threshold is configured in whole minutes. -/
structure Timestamp where
  date : ℤ
  minutes : ℤ
deriving DecidableEq, Repr

/-- The safety subsection of the configuration dictionary. -/
structure SafetyConfig where
  max_daily_feedings : ℕ
  min_feeding_interval_minutes : ℤ
  max_portion_grams : ℚ
deriving DecidableEq, Repr

/-- The feeding state fields of `CatFeeder` (`main.py`, `__init__`):
`last_feeding_time = None`, `last_feeding_date = None`,
`daily_feeding_count = 0`. -/
structure FeederState where
  last_feeding_time : Option ℤ
  last_feeding_date : Option ℤ
  daily_feeding_count : ℕ
deriving DecidableEq, Repr

/-- The initial feeding state set up by `CatFeeder.__init__`. -/
def initState : FeederState :=
  { last_feeding_time := none, last_feeding_date := none, daily_feeding_count := 0 }

/-- Embeds `CatFeeder.should_feed` (`main.py` lines 293-313).  Returns the boolean
the method returns together with the mutated state: the method early-returns
`True` when `last_feeding_time is None`; otherwise it first performs the
date-rollover reset when `last_feeding_date != current_date`, then rejects
on the daily limit, then returns `time_since_last >= min_interval`. -/
def shouldFeed (cfg : SafetyConfig) (s : FeederState) (now : Timestamp) :
    Bool × FeederState :=
  match s.last_feeding_time with
  | none => (true, s)
  | some last =>
    let s1 : FeederState :=
      if s.last_feeding_date ≠ some now.date then
        { s with daily_feeding_count := 0, last_feeding_date := some now.date }
      else s
    if cfg.max_daily_feedings ≤ s1.daily_feeding_count then
      (false, s1)
    else
      (decide (cfg.min_feeding_interval_minutes ≤ now.minutes - last), s1)

/-- Result of `CatFeeder.feed_cat`: the returned boolean, whether
`feeder_controller.dispense_food` was invoked, and the resulting state. -/
structure FeedCatResult where
  fed : Bool
  actuatorInvoked : Bool
  state : FeederState
deriving DecidableEq, Repr

/-- Embeds `CatFeeder.feed_cat` (`main.py` lines 326-360).  Here `dispenseOk` is the
boolean returned by the external actuator call
`feeder_controller.dispense_food(portion_grams)`.  The method rejects an
oversized portion before invoking the actuator; on actuator success it sets
`last_feeding_time = now` and increments `daily_feeding_count` (it never
touches `last_feeding_date`); on actuator failure it returns `False` with
no state mutation. -/
def feedCat (cfg : SafetyConfig) (s : FeederState) (now : Timestamp)
    (portion : ℚ) (dispenseOk : Bool) : FeedCatResult :=
  if cfg.max_portion_grams < portion then
    { fed := false, actuatorInvoked := false, state := s }
  else if dispenseOk then
    { fed := true, actuatorInvoked := true,
      state := { s with last_feeding_time := some now.minutes,
                        daily_feeding_count := s.daily_feeding_count + 1 } }
  else
    { fed := false, actuatorInvoked := true, state := s }

/-- Outcome of one feed attempt, labelling the distinct branches the code
takes (the `FeedOutcome` of the spec). -/
inductive FeedOutcome where
  | dispensed (grams : ℚ)
  | rejectedDailyLimit
  | rejectedMinInterval
  | rejectedPortionTooLarge
  | actuatorFailure
deriving DecidableEq, Repr

/-- Result of one scheduler-path feed attempt. -/
structure TryFeedResult where
  outcome : FeedOutcome
  actuatorInvoked : Bool
  state : FeederState
deriving DecidableEq, Repr

/-- The scheduler path (`feeding_schedule_loop`, `main.py` lines 264-282):
`if should_feed(): feed_cat(portion)`.  The outcome labels the branch at
which the attempt was decided: when `should_feed` returns `False` it did so
either at the daily-limit check (post-rollover count at the limit) or at
the min-interval comparison; when `feed_cat` runs, its own branches give
the portion rejection, the dispense, or the actuator failure. -/
def tryFeed (cfg : SafetyConfig) (s : FeederState) (now : Timestamp)
    (portion : ℚ) (dispenseOk : Bool) : TryFeedResult :=
  let r := shouldFeed cfg s now
  if r.1 then
    let f := feedCat cfg r.2 now portion dispenseOk
    { outcome :=
        if f.fed then .dispensed portion
        else if cfg.max_portion_grams < portion then .rejectedPortionTooLarge
        else .actuatorFailure,
      actuatorInvoked := f.actuatorInvoked, state := f.state }
  else
    { outcome :=
        if cfg.max_daily_feedings ≤ r.2.daily_feeding_count then .rejectedDailyLimit
        else .rejectedMinInterval,
      actuatorInvoked := false, state := r.2 }

/-- The manual path (`web_interface.py`, `api_feed`, lines 44-55): the
`/api/feed` route calls `cat_feeder.feed_cat(portion)` directly, without
consulting `should_feed`. -/
def manualFeed (cfg : SafetyConfig) (s : FeederState) (now : Timestamp)
    (portion : ℚ) (dispenseOk : Bool) : FeedCatResult :=
  feedCat cfg s now portion dispenseOk

/-- The default safety configuration (`main.py`, `_create_default_config`):
`max_daily_feedings = 10`, `min_feeding_interval_minutes = 120`,
`max_portion_grams = 200`. -/
def defaultSafety : SafetyConfig :=
  { max_daily_feedings := 10, min_feeding_interval_minutes := 120,
    max_portion_grams := 200 }

/-! ### Interleaved execution of concurrent feed attempts

`feeding_schedule_loop` and the web interface run in separate threads with
no lock around the `should_feed` / `feed_cat` sequence.  We model one feed
attempt as two atomic actions on the shared `FeederState`: the
`should_feed` evaluation, and (if approved) the `feed_cat` call, which
re-reads the shared state at the moment it runs.  A schedule (list of
thread indices) fixes the interleaving. -/

/-- The phase a feed-attempt thread is in: not yet checked, approved by
`should_feed` but not yet fed, or finished with an outcome. -/
inductive TPhase where
  | idle
  | approved
  | finished (o : FeedOutcome)
deriving DecidableEq, Repr

/-- One atomic action of a feed-attempt thread against the shared state.
From `idle` it runs `should_feed` (mutating the shared state through the
rollover) and either proceeds to `approved` or finishes with the rejection
the failing check produces; from `approved` it runs `feed_cat` on the
current shared state. -/
def gateStep (cfg : SafetyConfig) (now : Timestamp) (portion : ℚ)
    (dispenseOk : Bool) (shared : FeederState) :
    TPhase → FeederState × TPhase
  | .idle =>
    let r := shouldFeed cfg shared now
    if r.1 then (r.2, .approved)
    else
      (r.2, .finished
        (if cfg.max_daily_feedings ≤ r.2.daily_feeding_count then .rejectedDailyLimit
         else .rejectedMinInterval))
  | .approved =>
    let f := feedCat cfg shared now portion dispenseOk
    (f.state, .finished
      (if f.fed then .dispensed portion
       else if cfg.max_portion_grams < portion then .rejectedPortionTooLarge
       else .actuatorFailure))
  | .finished o => (shared, .finished o)

/-- Run a schedule of thread indices over the shared state and the list of
per-thread phases; index `i` performs one atomic action of thread `i`. -/
def runSched (cfg : SafetyConfig) (now : Timestamp) (portion : ℚ)
    (dispenseOk : Bool) :
    List ℕ → FeederState → List TPhase → FeederState × List TPhase
  | [], shared, phases => (shared, phases)
  | i :: rest, shared, phases =>
    match phases.get? i with
    | none => runSched cfg now portion dispenseOk rest shared phases
    | some ph =>
      let r := gateStep cfg now portion dispenseOk shared ph
      runSched cfg now portion dispenseOk rest r.1 (phases.set i r.2)

/-- Number of threads that finished with a `dispensed` outcome. -/
def countDispensed (phases : List TPhase) : ℕ :=
  phases.countP fun ph =>
    match ph with
    | .finished (.dispensed _) => true
    | _ => false

/-- Serialized execution of `n` feed attempts: each `tryFeed` call runs to
completion before the next starts (the schedule `[0,0,1,1,…]`), which is
the same as iterating `tryFeed` on the state.  Returns the outcomes in
order together with the final state. -/
def serialFeeds (cfg : SafetyConfig) (now : Timestamp) (portion : ℚ)
    (dispenseOk : Bool) : ℕ → FeederState → List FeedOutcome × FeederState
  | 0, s => ([], s)
  | n + 1, s =>
    let r := tryFeed cfg s now portion dispenseOk
    let rest := serialFeeds cfg now portion dispenseOk n r.state
    (r.outcome :: rest.1, rest.2)

/-! ### Weight sensor (`weight_sensor.py`) and presence (`main.py`) -/

/-- Embeds `WeightSensor._smooth_weight` (`weight_sensor.py` lines 130-142), acting
on the `weight_history` list: append the new reading, then drop the oldest
entry when the history exceeds `max_history_size = 10`. -/
def smoothStep (hist : List ℚ) (w : ℚ) : List ℚ :=
  let h := hist ++ [w]
  if 10 < h.length then h.drop 1 else h

/-- The `weight_history` after ingesting a list of readings, starting from
the empty history of `WeightSensor.__init__`. -/
def weightHistory (samples : List ℚ) : List ℚ :=
  samples.foldl smoothStep []

/-- The value `_smooth_weight` returns for the last reading: the arithmetic
mean `sum(weight_history) / len(weight_history)` of the post-append
history (the history is nonempty after an append, so the `len > 0` branch
is the one taken; the trailing `return weight` is dead for the caller). -/
def smoothedValue (samples : List ℚ) : ℚ :=
  (weightHistory samples).sum / (weightHistory samples).length

/-- The `weight_thresholds` configuration subsection used by
`CatFeeder.is_cat_present`. -/
structure WeightThresholds where
  min_cat_weight : ℚ
  max_cat_weight : ℚ
  tare_threshold : ℚ
deriving DecidableEq, Repr

/-- Embeds `CatFeeder.is_cat_present` (`main.py` lines 284-291) applied to the
current (smoothed) weight: `current_weight > tare_threshold and
min_cat_weight <= current_weight <= max_cat_weight`. -/
def isCatPresent (th : WeightThresholds) (currentWeight : ℚ) : Bool :=
  decide (th.tare_threshold < currentWeight) &&
    (decide (th.min_cat_weight ≤ currentWeight) &&
     decide (currentWeight ≤ th.max_cat_weight))

/-- The default weight thresholds (`_create_default_config`):
`min_cat_weight = 2.0`, `max_cat_weight = 8.0`, `tare_threshold = 0.1`. -/
def defaultThresholds : WeightThresholds :=
  { min_cat_weight := 2, max_cat_weight := 8, tare_threshold := 1/10 }

/-! ### Feeder controller (`feeder_controller.py`) -/

/-- The dispensing parameters set in `FeederController.__init__`
(lines 42-45): `portion_grams_per_second = 10`, `min_dispense_time = 0.5`,
`max_dispense_time = 5.0` (times in seconds). -/
structure DispenseParams where
  portion_grams_per_second : ℚ
  min_dispense_time : ℚ
  max_dispense_time : ℚ
deriving DecidableEq, Repr

/-- The default dispensing parameters of `FeederController.__init__`. -/
def defaultDispense : DispenseParams :=
  { portion_grams_per_second := 10, min_dispense_time := 1/2,
    max_dispense_time := 5 }

/-- The actuator run time computed by `FeederController.dispense_food`
(lines 134-136): `portion_grams / portion_grams_per_second`, clamped by
`max(min_dispense_time, min(max_dispense_time, t))`. -/
def dispenseTime (p : DispenseParams) (portion : ℚ) : ℚ :=
  max p.min_dispense_time
    (min p.max_dispense_time (portion / p.portion_grams_per_second))

/-- Modelled physical outcome of running the auger at the calibrated rate
for `dispenseTime`: the quantity of food actually dispensed, in grams.
The portion model of the code itself (`dispense_time = portion / rate`) is the
inverse of this map. -/
def actualGramsDispensed (p : DispenseParams) (portion : ℚ) : ℚ :=
  p.portion_grams_per_second * dispenseTime p portion

/-! ### Health monitor (`health_monitor.py`) -/

/-- Alert severities. -/
inductive Severity where
  | info
  | warning
  | critical
deriving DecidableEq, Repr

/-- The severity classification of `HealthMonitor._create_alert`
(lines 207-236): `high_temperature` and `high_disk_usage` are critical,
`high_cpu_usage` and `high_memory_usage` are warning, everything else is
info. -/
def severityOf (alert_type : String) : Severity :=
  if alert_type = "high_temperature" ∨ alert_type = "high_disk_usage" then
    .critical
  else if alert_type = "high_cpu_usage" ∨ alert_type = "high_memory_usage" then
    .warning
  else
    .info

/-- An alert as `_create_alert` records it: its type string and the
severity the table assigns. -/
structure Alert where
  type : String
  severity : Severity
deriving DecidableEq, Repr

/-- Build the alert `_create_alert` appends for a given type. -/
def mkAlert (alert_type : String) : Alert :=
  { type := alert_type, severity := severityOf alert_type }

/-- The alert thresholds of `HealthMonitor.__init__` (lines 45-52). -/
structure HealthThresholds where
  cpu_usage : ℚ
  memory_usage : ℚ
  disk_usage : ℚ
  temperature : ℚ
  database_size_mb : ℚ
  log_size_mb : ℚ
deriving DecidableEq, Repr

/-- The default thresholds (`__init__`): cpu 80, memory 85, disk 90,
temperature 70, database 100 MB, log 50 MB. -/
def defaultHealthThresholds : HealthThresholds :=
  { cpu_usage := 80, memory_usage := 85, disk_usage := 90,
    temperature := 70, database_size_mb := 100, log_size_mb := 50 }

/-- The latest sample of each windowed metric (`none` when the window of the metric is empty), plus the database and log sizes, as read by
`HealthMonitor._check_thresholds`. -/
structure LatestMetrics where
  cpu_usage : Option ℚ
  memory_usage : Option ℚ
  disk_usage : Option ℚ
  temperature : Option ℚ
  database_size : ℚ
  log_size : ℚ
deriving DecidableEq, Repr

/-- The alert a single windowed-metric check contributes: present exactly
when the window is nonempty and its latest value strictly exceeds the
threshold. -/
def metricAlert (latest : Option ℚ) (threshold : ℚ) (alert_type : String) :
    List Alert :=
  match latest with
  | none => []
  | some v => if threshold < v then [mkAlert alert_type] else []

/-- Embeds `HealthMonitor._check_thresholds` (lines 167-205): one pass over the
six checks, in source order, collecting the alerts created.  Every check
uses a strict `>` comparison against its threshold. -/
def checkThresholds (th : HealthThresholds) (m : LatestMetrics) : List Alert :=
  metricAlert m.cpu_usage th.cpu_usage "high_cpu_usage" ++
  metricAlert m.memory_usage th.memory_usage "high_memory_usage" ++
  metricAlert m.disk_usage th.disk_usage "high_disk_usage" ++
  metricAlert m.temperature th.temperature "high_temperature" ++
  (if th.database_size_mb < m.database_size then [mkAlert "large_database"] else []) ++
  (if th.log_size_mb < m.log_size then [mkAlert "large_log_file"] else [])

/-- The windowed metrics a collection pass can append to. -/
inductive MetricKind where
  | cpu_usage
  | memory_usage
  | disk_usage
  | temperature
deriving DecidableEq, Repr

/-- Embeds `HealthMonitor._collect_metrics` (lines 92-143): which metric windows
receive a sample in one pass, given the result of each collector (`none` models
the collector raising or, for temperature, being unavailable).  The cpu,
memory and disk collections run sequentially inside one `try` block, so a
failure of any of them aborts the remainder of the pass; only the
temperature read sits in its own nested `try`/`if temp is not None` guard,
so its failure skips just that append and the pass continues. -/
def collectMetrics (cpu mem disk temp : Option ℚ) : List MetricKind :=
  match cpu with
  | none => []
  | some _ =>
    match mem with
    | none => [.cpu_usage]
    | some _ =>
      match disk with
      | none => [.cpu_usage, .memory_usage]
      | some _ =>
        [.cpu_usage, .memory_usage, .disk_usage] ++
          (match temp with
           | none => []
           | some _ => [.temperature])

/-! ## Helper lemmas about the gate -/

/-- Evaluating `should_feed` never changes `last_feeding_time` (the
rollover touches only the count and the date). -/
theorem shouldFeed_preserves_time (cfg : SafetyConfig) (s : FeederState)
    (now : Timestamp) :
    (shouldFeed cfg s now).2.last_feeding_time = s.last_feeding_time := by
  obtain ⟨t, d, c⟩ := s
  cases t with
  | none => rfl
  | some last =>
    unfold shouldFeed
    dsimp only
    split_ifs <;> rfl

/-- Evaluating `should_feed` never increases `daily_feeding_count`. -/
theorem shouldFeed_count_le (cfg : SafetyConfig) (s : FeederState)
    (now : Timestamp) :
    (shouldFeed cfg s now).2.daily_feeding_count ≤ s.daily_feeding_count := by
  obtain ⟨t, d, c⟩ := s
  cases t with
  | none => exact le_rfl
  | some last =>
    unfold shouldFeed
    dsimp only
    split_ifs <;> first | exact Nat.zero_le _ | exact le_rfl

/-- When `last_feeding_time` is set, `last_feeding_date` equals the
current date, and the count is at the daily limit, `should_feed` returns
`False` with the state unchanged. -/
theorem shouldFeed_at_limit (cfg : SafetyConfig) (s : FeederState)
    (now : Timestamp) (last : ℤ)
    (htime : s.last_feeding_time = some last)
    (hdate : s.last_feeding_date = some now.date)
    (hcount : cfg.max_daily_feedings ≤ s.daily_feeding_count) :
    shouldFeed cfg s now = (false, s) := by
  obtain ⟨t, d, c⟩ := s
  simp only at htime hdate hcount
  subst htime hdate
  unfold shouldFeed
  dsimp only
  have h1 : ¬ (some now.date ≠ some now.date) := by simp
  rw [if_neg h1]
  dsimp only
  rw [if_pos hcount]

/-! ## C1 — all feed requests pass through the gate -/

/-- C1, counterexample.  The claim states that every feed request made
while `daily_feeding_count ≥ max_daily_feedings` is rejected with
`RejectedDailyLimit` and the actuator is not invoked, including manual
requests through the `/api/feed` route.  But `api_feed` calls `feed_cat`
directly, and `feed_cat` performs no daily-limit check: with
`max_daily_feedings = 1` and the count already at `1`, a manual 50 g
request still invokes the actuator and dispenses. -/
theorem C1_counterexample :
    (FeederState.daily_feeding_count ⟨some 1000, some 5, 1⟩ =
       SafetyConfig.max_daily_feedings ⟨1, 120, 200⟩) ∧
    (manualFeed ⟨1, 120, 200⟩ ⟨some 1000, some 5, 1⟩ ⟨5, 1010⟩ 50 true).fed
      = true ∧
    (manualFeed ⟨1, 120, 200⟩ ⟨some 1000, some 5, 1⟩ ⟨5, 1010⟩ 50
      true).actuatorInvoked = true := by
  decide

/-- C1, amended: only scheduler-issued requests pass through the feeding
gate.  For a scheduler request (`tryFeed`) made while a feeding has
already happened (`last_feeding_time` set), `last_feeding_date` is the
current date and `daily_feeding_count ≥ max_daily_feedings`, the outcome
is `RejectedDailyLimit` and the actuator is not invoked.  Manual requests
through `/api/feed` bypass the gate: `feed_cat` invokes the actuator
whenever the portion does not exceed `max_portion_grams`, regardless of
the daily count. -/
theorem C1_amended :
    (∀ (cfg : SafetyConfig) (s : FeederState) (now : Timestamp)
       (portion : ℚ) (dispenseOk : Bool) (last : ℤ),
       s.last_feeding_time = some last →
       s.last_feeding_date = some now.date →
       cfg.max_daily_feedings ≤ s.daily_feeding_count →
       (tryFeed cfg s now portion dispenseOk).outcome =
           FeedOutcome.rejectedDailyLimit ∧
       (tryFeed cfg s now portion dispenseOk).actuatorInvoked = false) ∧
    (∀ (cfg : SafetyConfig) (s : FeederState) (now : Timestamp)
       (portion : ℚ) (dispenseOk : Bool),
       ¬ cfg.max_portion_grams < portion →
       (manualFeed cfg s now portion dispenseOk).actuatorInvoked = true) := by
  constructor
  · intro cfg s now portion dispenseOk last htime hdate hcount
    have h := shouldFeed_at_limit cfg s now last htime hdate hcount
    unfold tryFeed
    rw [h]
    simp [hcount]
  · intro cfg s now portion dispenseOk hp
    unfold manualFeed feedCat
    rw [if_neg hp]
    split <;> rfl

/-- Witness for `C1_amended` at a concrete input. -/
theorem C1_amended_witness :
    (tryFeed ⟨2, 120, 200⟩ ⟨some 1000, some 5, 2⟩ ⟨5, 2000⟩ 50 true).outcome
        = FeedOutcome.rejectedDailyLimit ∧
    (tryFeed ⟨2, 120, 200⟩ ⟨some 1000, some 5, 2⟩ ⟨5, 2000⟩ 50
        true).actuatorInvoked = false ∧
    (manualFeed ⟨2, 120, 200⟩ ⟨some 1000, some 5, 2⟩ ⟨5, 2000⟩ 50
        true).actuatorInvoked = true := by
  refine ⟨?_, ?_, ?_⟩
  · exact (C1_amended.1 ⟨2, 120, 200⟩ ⟨some 1000, some 5, 2⟩ ⟨5, 2000⟩ 50 true
      1000 rfl rfl (by decide)).1
  · exact (C1_amended.1 ⟨2, 120, 200⟩ ⟨some 1000, some 5, 2⟩ ⟨5, 2000⟩ 50 true
      1000 rfl rfl (by decide)).2
  · exact C1_amended.2 ⟨2, 120, 200⟩ ⟨some 1000, some 5, 2⟩ ⟨5, 2000⟩ 50 true
      (by decide)

/-- When the stored `last_feeding_time` is closer to `now` than the
minimum interval, `should_feed` returns `False`. -/
theorem shouldFeed_interval_false (cfg : SafetyConfig) (s : FeederState)
    (now : Timestamp) (last : ℤ)
    (htime : s.last_feeding_time = some last)
    (hint : now.minutes - last < cfg.min_feeding_interval_minutes) :
    (shouldFeed cfg s now).1 = false := by
  obtain ⟨t, d, c⟩ := s
  simp only at htime
  subst htime
  unfold shouldFeed
  dsimp only
  split_ifs with h1 h2 h2
  · rfl
  · exact decide_eq_false (not_le.mpr hint)
  · rfl
  · exact decide_eq_false (not_le.mpr hint)

/-- When `should_feed` disapproves, the scheduler path does not invoke
the actuator and leaves the state `should_feed` produced. -/
theorem tryFeed_not_approved (cfg : SafetyConfig) (s : FeederState)
    (now : Timestamp) (portion : ℚ) (dispenseOk : Bool)
    (h : (shouldFeed cfg s now).1 = false) :
    (tryFeed cfg s now portion dispenseOk).actuatorInvoked = false ∧
    (tryFeed cfg s now portion dispenseOk).state = (shouldFeed cfg s now).2 := by
  have key : tryFeed cfg s now portion dispenseOk =
      { outcome :=
          if cfg.max_daily_feedings ≤ (shouldFeed cfg s now).2.daily_feeding_count
          then FeedOutcome.rejectedDailyLimit else FeedOutcome.rejectedMinInterval,
        actuatorInvoked := false, state := (shouldFeed cfg s now).2 } := by
    simp [tryFeed, h]
  rw [key]
  exact ⟨rfl, rfl⟩

/-- A dispensed outcome always stamps `last_feeding_time` with the
current time. -/
theorem tryFeed_dispensed_time (cfg : SafetyConfig) (s : FeederState)
    (now : Timestamp) (portion : ℚ) (dispenseOk : Bool) (g : ℚ)
    (h : (tryFeed cfg s now portion dispenseOk).outcome = FeedOutcome.dispensed g) :
    (tryFeed cfg s now portion dispenseOk).state.last_feeding_time =
      some now.minutes := by
  unfold tryFeed feedCat at h ⊢
  dsimp only at h ⊢
  split_ifs at h ⊢ <;> first | rfl | contradiction

/-! ## C4 — actuator failure leaves the feeding state unchanged -/

/-- C4: for every scheduler-path call that reaches the actuator
(`should_feed` approved and the portion within the cap) whose dispense
fails, the outcome is `ActuatorFailure`, the state is exactly the one
`should_feed` left (so `feed_cat` changed nothing), `last_feeding_time`
is not updated, and `daily_feeding_count` is not incremented (it does not
increase), so an immediate retry is possible. -/
theorem C4_actuator_failure_frame (cfg : SafetyConfig) (s : FeederState)
    (now : Timestamp) (portion : ℚ)
    (happroved : (shouldFeed cfg s now).1 = true)
    (hportion : ¬ cfg.max_portion_grams < portion) :
    (tryFeed cfg s now portion false).outcome = FeedOutcome.actuatorFailure ∧
    (tryFeed cfg s now portion false).actuatorInvoked = true ∧
    (tryFeed cfg s now portion false).state = (shouldFeed cfg s now).2 ∧
    (tryFeed cfg s now portion false).state.last_feeding_time =
      s.last_feeding_time ∧
    (tryFeed cfg s now portion false).state.daily_feeding_count ≤
      s.daily_feeding_count := by
  have hsf := shouldFeed_preserves_time cfg s now
  have hcl := shouldFeed_count_le cfg s now
  have key : tryFeed cfg s now portion false =
      { outcome := FeedOutcome.actuatorFailure, actuatorInvoked := true,
        state := (shouldFeed cfg s now).2 } := by
    simp [tryFeed, feedCat, happroved, hportion]
  rw [key]
  exact ⟨rfl, rfl, rfl, hsf, hcl⟩

/-- Witness for `C4_actuator_failure_frame` at a concrete input. -/
theorem C4_actuator_failure_frame_witness :
    (tryFeed defaultSafety ⟨some 1000, some 5, 3⟩ ⟨5, 2000⟩ 50 false).outcome =
        FeedOutcome.actuatorFailure ∧
    (tryFeed defaultSafety ⟨some 1000, some 5, 3⟩ ⟨5, 2000⟩ 50
        false).state.last_feeding_time = some 1000 ∧
    (tryFeed defaultSafety ⟨some 1000, some 5, 3⟩ ⟨5, 2000⟩ 50
        false).state.daily_feeding_count ≤ 3 := by
  have h := C4_actuator_failure_frame defaultSafety ⟨some 1000, some 5, 3⟩
    ⟨5, 2000⟩ 50 (by decide) (by decide)
  exact ⟨h.1, h.2.2.2.1, h.2.2.2.2⟩

/-! ## C6 — oversized portions -/

/-- C6, counterexample.  The claim states that an oversized portion is
rejected before any other step and with no side effects on
`daily_feeding_count`, `last_feeding_time` and `last_feeding_date`.  On
the scheduler path the portion check runs inside `feed_cat`, after
`should_feed`: (a) a 300 g request (cap 200 g) arriving on a new date
still performs the date rollover, resetting the count from 3 to 0 and
restamping `last_feeding_date`; (b) with the count at the daily limit,
the same oversized request is rejected as `RejectedDailyLimit`, not
`RejectedPortionTooLarge`. -/
theorem C6_counterexample :
    ((tryFeed defaultSafety ⟨some 1000, some 4, 3⟩ ⟨5, 10000⟩ 300 true).outcome =
        FeedOutcome.rejectedPortionTooLarge ∧
     (tryFeed defaultSafety ⟨some 1000, some 4, 3⟩ ⟨5, 10000⟩ 300
        true).state.daily_feeding_count = 0 ∧
     (tryFeed defaultSafety ⟨some 1000, some 4, 3⟩ ⟨5, 10000⟩ 300
        true).state.last_feeding_date = some 5) ∧
    (defaultSafety.max_portion_grams < 300 ∧
     (tryFeed ⟨3, 120, 200⟩ ⟨some 1000, some 5, 3⟩ ⟨5, 10000⟩ 300 true).outcome =
        FeedOutcome.rejectedDailyLimit) := by
  decide

/-- C6, amended: the portion check is the first check only on the manual
path, where `feed_cat` rejects an oversized portion with no side effects
at all.  On the scheduler path the check runs inside `feed_cat` after
`should_feed` has already executed (including its rollover mutation of
the count and the date): when `should_feed` approves, the outcome is
`RejectedPortionTooLarge`, the actuator is not invoked, `feed_cat` adds
no mutation beyond the one `should_feed` made, and `last_feeding_time`
is unchanged. -/
theorem C6_amended :
    (∀ (cfg : SafetyConfig) (s : FeederState) (now : Timestamp)
       (portion : ℚ) (dispenseOk : Bool),
       cfg.max_portion_grams < portion →
       manualFeed cfg s now portion dispenseOk =
         ⟨false, false, s⟩) ∧
    (∀ (cfg : SafetyConfig) (s : FeederState) (now : Timestamp)
       (portion : ℚ) (dispenseOk : Bool),
       cfg.max_portion_grams < portion →
       (shouldFeed cfg s now).1 = true →
       (tryFeed cfg s now portion dispenseOk).outcome =
           FeedOutcome.rejectedPortionTooLarge ∧
       (tryFeed cfg s now portion dispenseOk).actuatorInvoked = false ∧
       (tryFeed cfg s now portion dispenseOk).state = (shouldFeed cfg s now).2 ∧
       (tryFeed cfg s now portion dispenseOk).state.last_feeding_time =
         s.last_feeding_time) := by
  constructor
  · intro cfg s now portion dispenseOk hp
    unfold manualFeed feedCat
    rw [if_pos hp]
  · intro cfg s now portion dispenseOk hp happroved
    have hsf := shouldFeed_preserves_time cfg s now
    have key : tryFeed cfg s now portion dispenseOk =
        { outcome := FeedOutcome.rejectedPortionTooLarge, actuatorInvoked := false,
          state := (shouldFeed cfg s now).2 } := by
      simp [tryFeed, feedCat, happroved, hp]
    rw [key]
    exact ⟨rfl, rfl, rfl, hsf⟩

/-- Witness for `C6_amended` at a concrete input. -/
theorem C6_amended_witness :
    manualFeed defaultSafety initState ⟨5, 1000⟩ 300 true =
      ⟨false, false, initState⟩ ∧
    (tryFeed defaultSafety initState ⟨5, 1000⟩ 300 true).outcome =
      FeedOutcome.rejectedPortionTooLarge := by
  refine ⟨C6_amended.1 defaultSafety initState ⟨5, 1000⟩ 300 true (by decide), ?_⟩
  exact (C6_amended.2 defaultSafety initState ⟨5, 1000⟩ 300 true (by decide)
    (by decide)).1

/-! ## C3 — date rollover resets the daily count -/

/-- C3, counterexample.  The claim states the reset happens on the first
`TryFeed` evaluation whose date differs from `last_feeding_date`, and
that subsequent evaluations on the same date never reset the count again.
From the initial state, the first evaluation on date 5 (whose date
differs from `last_feeding_date = none`) performs no reset at all — it
hits the `last_feeding_time is None` early return, leaving
`last_feeding_date` unset — the feed then raises the count to 1, and the
second evaluation on the very same date 5 is the one that resets the
count from 1 back to 0. -/
theorem C3_counterexample :
    (initState.last_feeding_date ≠ some (5 : ℤ) ∧
     (tryFeed defaultSafety initState ⟨5, 1000⟩ 50
        true).state.daily_feeding_count = 1 ∧
     (tryFeed defaultSafety initState ⟨5, 1000⟩ 50
        true).state.last_feeding_date = none) ∧
    (tryFeed defaultSafety
        (tryFeed defaultSafety initState ⟨5, 1000⟩ 50 true).state
        ⟨5, 1001⟩ 50 true).state.daily_feeding_count = 0 := by
  decide

/-- C3, amended: the rollover branch fires exactly on evaluations where
`last_feeding_time` is set and `last_feeding_date` differs from the
current date.  An evaluation with `last_feeding_time` unset changes
nothing — in particular it does not stamp `last_feeding_date`, so after
the first successful feed the next evaluation resets the count even on
the same date.  Once `last_feeding_date` equals the current date, no
further evaluation on that date resets the count. -/
theorem C3_amended (cfg : SafetyConfig) (s : FeederState) (now : Timestamp) :
    (s.last_feeding_time = none → (shouldFeed cfg s now).2 = s) ∧
    (s.last_feeding_time ≠ none → s.last_feeding_date ≠ some now.date →
       (shouldFeed cfg s now).2.daily_feeding_count = 0 ∧
       (shouldFeed cfg s now).2.last_feeding_date = some now.date) ∧
    (s.last_feeding_date = some now.date →
       (shouldFeed cfg s now).2.daily_feeding_count = s.daily_feeding_count ∧
       (shouldFeed cfg s now).2.last_feeding_date = some now.date) := by
  obtain ⟨t, d, c⟩ := s
  refine ⟨?_, ?_, ?_⟩
  · intro ht
    simp only at ht
    subst ht
    rfl
  · intro ht hd
    simp only at ht hd
    cases t with
    | none => exact absurd rfl ht
    | some last =>
      unfold shouldFeed
      dsimp only
      rw [if_pos hd]
      dsimp only
      split_ifs <;> exact ⟨rfl, rfl⟩
  · intro hd
    simp only at hd
    subst hd
    cases t with
    | none => exact ⟨rfl, rfl⟩
    | some last =>
      unfold shouldFeed
      dsimp only
      have h1 : ¬ (some now.date ≠ some now.date) := by simp
      rw [if_neg h1]
      dsimp only
      split_ifs <;> exact ⟨rfl, rfl⟩

/-- Witness for `C3_amended` at concrete inputs. -/
theorem C3_amended_witness :
    (shouldFeed defaultSafety initState ⟨5, 1000⟩).2 = initState ∧
    ((shouldFeed defaultSafety ⟨some 1000, some 4, 3⟩
        ⟨5, 2000⟩).2.daily_feeding_count = 0 ∧
     (shouldFeed defaultSafety ⟨some 1000, some 4, 3⟩
        ⟨5, 2000⟩).2.last_feeding_date = some 5) ∧
    (shouldFeed defaultSafety ⟨some 1000, some 5, 3⟩
        ⟨5, 2000⟩).2.daily_feeding_count = 3 := by
  refine ⟨(C3_amended defaultSafety initState ⟨5, 1000⟩).1 rfl, ?_, ?_⟩
  · exact (C3_amended defaultSafety ⟨some 1000, some 4, 3⟩ ⟨5, 2000⟩).2.1
      (by decide) (by decide)
  · exact ((C3_amended defaultSafety ⟨some 1000, some 5, 3⟩ ⟨5, 2000⟩).2.2
      rfl).1

/-! ## C5 — minimum-interval rejection -/

/-- C5, counterexample.  The claim states that every call with
`last_feeding_time` set and `now - last_feeding_time <
min_feeding_interval` has outcome `RejectedMinInterval`.  But the
daily-limit check runs first: with the count already at the limit and the
interval also too short, the outcome is `RejectedDailyLimit`. -/
theorem C5_counterexample :
    (FeederState.last_feeding_time ⟨some 1000, some 5, 2⟩ = some 1000 ∧
     (1010 : ℤ) - 1000 <
       SafetyConfig.min_feeding_interval_minutes ⟨2, 120, 200⟩) ∧
    (tryFeed ⟨2, 120, 200⟩ ⟨some 1000, some 5, 2⟩ ⟨5, 1010⟩ 50 true).outcome ≠
      FeedOutcome.rejectedMinInterval ∧
    (tryFeed ⟨2, 120, 200⟩ ⟨some 1000, some 5, 2⟩ ⟨5, 1010⟩ 50 true).outcome =
      FeedOutcome.rejectedDailyLimit := by
  decide

/-- C5, amended: when `last_feeding_time` is set, the interval since it is
shorter than `min_feeding_interval`, and the daily-limit check has not
already rejected the call (the post-rollover count is below the limit),
the outcome is `RejectedMinInterval` and the actuator is not invoked.
Moreover the rule is indeed the backstop against duplicate feeding: after
any dispense, a second scheduler-path call within the minimum interval
never invokes the actuator. -/
theorem C5_amended :
    (∀ (cfg : SafetyConfig) (s : FeederState) (now : Timestamp)
       (portion : ℚ) (dispenseOk : Bool) (last : ℤ),
       s.last_feeding_time = some last →
       now.minutes - last < cfg.min_feeding_interval_minutes →
       (shouldFeed cfg s now).2.daily_feeding_count < cfg.max_daily_feedings →
       (tryFeed cfg s now portion dispenseOk).outcome =
           FeedOutcome.rejectedMinInterval ∧
       (tryFeed cfg s now portion dispenseOk).actuatorInvoked = false) ∧
    (∀ (cfg : SafetyConfig) (s : FeederState) (now nxt : Timestamp)
       (portionA portionB : ℚ) (dispenseOk : Bool),
       (tryFeed cfg s now portionA true).outcome = FeedOutcome.dispensed portionA →
       nxt.minutes - now.minutes < cfg.min_feeding_interval_minutes →
       (tryFeed cfg (tryFeed cfg s now portionA true).state nxt portionB
           dispenseOk).actuatorInvoked = false) := by
  constructor
  · intro cfg s now portion dispenseOk last htime hint hcount
    have hfalse := shouldFeed_interval_false cfg s now last htime hint
    obtain ⟨hinv, hstate⟩ := tryFeed_not_approved cfg s now portion dispenseOk hfalse
    refine ⟨?_, hinv⟩
    have key : tryFeed cfg s now portion dispenseOk =
        { outcome :=
            if cfg.max_daily_feedings ≤ (shouldFeed cfg s now).2.daily_feeding_count
            then FeedOutcome.rejectedDailyLimit else FeedOutcome.rejectedMinInterval,
          actuatorInvoked := false, state := (shouldFeed cfg s now).2 } := by
      simp [tryFeed, hfalse]
    rw [key]
    dsimp only
    rw [if_neg (not_le.mpr hcount)]
  · intro cfg s now nxt portionA portionB dispenseOk hdisp hint
    have htime := tryFeed_dispensed_time cfg s now portionA true portionA hdisp
    exact (tryFeed_not_approved cfg _ nxt portionB dispenseOk
      (shouldFeed_interval_false cfg _ nxt now.minutes htime hint)).1

/-- Witness for `C5_amended` at concrete inputs. -/
theorem C5_amended_witness :
    (tryFeed defaultSafety ⟨some 1000, some 5, 2⟩ ⟨5, 1010⟩ 50 true).outcome =
        FeedOutcome.rejectedMinInterval ∧
    (tryFeed defaultSafety
        (tryFeed defaultSafety initState ⟨5, 1000⟩ 50 true).state
        ⟨5, 1030⟩ 50 true).actuatorInvoked = false := by
  constructor
  · exact (C5_amended.1 defaultSafety ⟨some 1000, some 5, 2⟩ ⟨5, 1010⟩ 50 true
      1000 rfl (by decide) (by decide)).1
  · exact C5_amended.2 defaultSafety initState ⟨5, 1000⟩ ⟨5, 1030⟩ 50 50 true
      (by decide) (by decide)

/-! ## C2 — concurrency of TryFeed -/

/-- From the initial state, a completed feed attempt with a succeeding
actuator dispenses and leaves count 1, the current time stamped, and the
date still unset. -/
theorem tryFeed_from_init (cfg : SafetyConfig) (now : Timestamp) (portion : ℚ)
    (hp : ¬ cfg.max_portion_grams < portion) :
    tryFeed cfg initState now portion true =
      { outcome := FeedOutcome.dispensed portion, actuatorInvoked := true,
        state := ⟨some now.minutes, none, 1⟩ } := by
  simp [tryFeed, shouldFeed, feedCat, initState, hp]

/-- One completed attempt after the first feed of the process lifetime:
the rollover fires (the date was never stamped), resets the count, and the
attempt is rejected on the minimum interval. -/
theorem tryFeed_after_first (cfg : SafetyConfig) (now : Timestamp)
    (portion : ℚ) (dispenseOk : Bool)
    (hmax : cfg.max_daily_feedings = 1)
    (hmin : 1 ≤ cfg.min_feeding_interval_minutes) :
    tryFeed cfg ⟨some now.minutes, none, 1⟩ now portion dispenseOk =
      { outcome := FeedOutcome.rejectedMinInterval, actuatorInvoked := false,
        state := ⟨some now.minutes, some now.date, 0⟩ } := by
  have h0 : ¬ (cfg.min_feeding_interval_minutes ≤ (0 : ℤ)) := by omega
  simp [tryFeed, shouldFeed, hmax, h0]

/-- The state reached after the rollover is a fixpoint: every further
attempt at the same timestamp is rejected on the minimum interval and
changes nothing. -/
theorem tryFeed_stable (cfg : SafetyConfig) (now : Timestamp)
    (portion : ℚ) (dispenseOk : Bool)
    (hmax : cfg.max_daily_feedings = 1)
    (hmin : 1 ≤ cfg.min_feeding_interval_minutes) :
    tryFeed cfg ⟨some now.minutes, some now.date, 0⟩ now portion dispenseOk =
      { outcome := FeedOutcome.rejectedMinInterval, actuatorInvoked := false,
        state := ⟨some now.minutes, some now.date, 0⟩ } := by
  have h0 : ¬ (cfg.min_feeding_interval_minutes ≤ (0 : ℤ)) := by omega
  simp [tryFeed, shouldFeed, hmax, h0]

/-- Iterating serialized attempts from a rejection fixpoint yields only
min-interval rejections. -/
theorem serialFeeds_const (cfg : SafetyConfig) (now : Timestamp) (portion : ℚ)
    (dispenseOk : Bool) (s : FeederState)
    (hfix : tryFeed cfg s now portion dispenseOk =
      { outcome := FeedOutcome.rejectedMinInterval, actuatorInvoked := false,
        state := s }) :
    ∀ m, serialFeeds cfg now portion dispenseOk m s =
      (List.replicate m FeedOutcome.rejectedMinInterval, s) := by
  intro m
  induction m with
  | zero => rfl
  | succ k ih =>
    unfold serialFeeds
    rw [hfix]
    dsimp only
    rw [ih]
    rfl

/-- C2, counterexample.  The claim states that N concurrent `TryFeed`
calls with a daily limit of 1 and count 0 yield exactly one `Dispensed`
outcome regardless of interleaving.  The code takes no lock: under the
interleaving where both threads run `should_feed` before either runs
`feed_cat` (schedule `[0, 1, 0, 1]`), both attempts dispense. -/
theorem C2_counterexample :
    (runSched ⟨1, 120, 200⟩ ⟨5, 1000⟩ 50 true [0, 1, 0, 1] initState
        [TPhase.idle, TPhase.idle]).2 =
      [TPhase.finished (FeedOutcome.dispensed 50),
       TPhase.finished (FeedOutcome.dispensed 50)] ∧
    countDispensed (runSched ⟨1, 120, 200⟩ ⟨5, 1000⟩ 50 true [0, 1, 0, 1]
        initState [TPhase.idle, TPhase.idle]).2 = 2 := by
  decide

/-- C2, amended: the check sequence is not serialized (no lock exists, see
the counterexample), so the property only holds of serialized execution:
when each of N ≥ 1 attempts runs to completion before the next starts,
starting from the initial state with a daily limit of 1, a minimum
interval of at least one minute and an in-cap portion, exactly the first
attempt dispenses and the other N−1 are rejected — though by the
min-interval rule, the daily counter having incidentally been reset to 0
by the rollover (`feed_cat` never stamps `last_feeding_date`). -/
theorem C2_amended (cfg : SafetyConfig) (now : Timestamp) (portion : ℚ)
    (n : ℕ)
    (hmax : cfg.max_daily_feedings = 1)
    (hmin : 1 ≤ cfg.min_feeding_interval_minutes)
    (hp : ¬ cfg.max_portion_grams < portion) :
    (serialFeeds cfg now portion true (n + 1) initState).1 =
      FeedOutcome.dispensed portion ::
        List.replicate n FeedOutcome.rejectedMinInterval ∧
    (serialFeeds cfg now portion true (n + 1) initState).1.count
        (FeedOutcome.dispensed portion) = 1 := by
  have hmain : (serialFeeds cfg now portion true (n + 1) initState).1 =
      FeedOutcome.dispensed portion ::
        List.replicate n FeedOutcome.rejectedMinInterval := by
    unfold serialFeeds
    rw [tryFeed_from_init cfg now portion hp]
    dsimp only
    cases n with
    | zero => rfl
    | succ j =>
      unfold serialFeeds
      rw [tryFeed_after_first cfg now portion true hmax hmin]
      dsimp only
      rw [serialFeeds_const cfg now portion true _
        (tryFeed_stable cfg now portion true hmax hmin) j]
      rfl
  refine ⟨hmain, ?_⟩
  rw [hmain]
  simp [List.count_cons, List.count_replicate]

/-- Witness for `C2_amended` at a concrete input (N = 3). -/
theorem C2_amended_witness :
    (serialFeeds ⟨1, 120, 200⟩ ⟨5, 1000⟩ 50 true 3 initState).1 =
      [FeedOutcome.dispensed 50, FeedOutcome.rejectedMinInterval,
       FeedOutcome.rejectedMinInterval] :=
  (C2_amended ⟨1, 120, 200⟩ ⟨5, 1000⟩ 50 2 rfl (by decide) (by decide)).1

/-! ## C7 — weight smoothing window and presence -/

/-- One smoothing step keeps the history within its capacity of 10. -/
theorem smoothStep_length_le (hist : List ℚ) (w : ℚ) (h : hist.length ≤ 10) :
    (smoothStep hist w).length ≤ 10 := by
  unfold smoothStep
  dsimp only
  split_ifs with h1 <;> simp_all

/-- Folding the smoothing step over the readings keeps exactly the at
most 10 most recent ones. -/
theorem foldl_smoothStep (samples : List ℚ) :
    ∀ hist : List ℚ, hist.length ≤ 10 →
      samples.foldl smoothStep hist =
        (hist ++ samples).drop ((hist ++ samples).length - 10) := by
  induction samples with
  | nil =>
    intro hist h
    simp [Nat.sub_eq_zero_of_le h]
  | cons w ws ih =>
    intro hist h
    rw [List.foldl_cons, ih (smoothStep hist w) (smoothStep_length_le hist w h)]
    by_cases h10 : hist.length = 10
    · have hstep : smoothStep hist w = (hist ++ [w]).drop 1 := by
        unfold smoothStep
        dsimp only
        rw [if_pos (by simp [h10])]
      have hne : 1 ≤ (hist ++ [w]).length := by simp
      have e1 : ((hist ++ [w]).drop 1 ++ ws).length - 10 = ws.length := by
        simp [h10]
      rw [hstep, e1, ← List.drop_append_of_le_length hne, List.drop_drop]
      have hassoc : (hist ++ [w]) ++ ws = hist ++ w :: ws := by simp
      rw [hassoc]
      congr 1
      simp [h10]
      omega
    · have hlt : hist.length < 10 := lt_of_le_of_ne h h10
      have hstep : smoothStep hist w = hist ++ [w] := by
        unfold smoothStep
        dsimp only
        rw [if_neg (by simp; omega)]
      rw [hstep]
      have hassoc : (hist ++ [w]) ++ ws = hist ++ w :: ws := by simp
      rw [hassoc]

/-- The retained history is the suffix of the most recent at most 10
readings. -/
theorem weightHistory_eq (samples : List ℚ) :
    weightHistory samples = samples.drop (samples.length - 10) := by
  have h := foldl_smoothStep samples [] (by simp)
  simpa [weightHistory] using h

/-- C7: the smoothed weight equals the arithmetic mean of the at most 10
most recent samples; presence holds exactly when the smoothed weight
strictly exceeds the tare threshold and lies in the configured band; and
in the concrete scenario (thresholds 2.0 / 8.0 / 0.1, samples
[0, 0, 5, 5, 5]) the smoothed value is 3.0 and presence holds. -/
theorem C7_smoothing_and_presence :
    (∀ samples : List ℚ,
       weightHistory samples = samples.drop (samples.length - 10) ∧
       smoothedValue samples =
         (samples.drop (samples.length - 10)).sum /
           ((samples.drop (samples.length - 10)).length : ℚ)) ∧
    (∀ (th : WeightThresholds) (w : ℚ),
       isCatPresent th w = true ↔
         (th.tare_threshold < w ∧ th.min_cat_weight ≤ w ∧
          w ≤ th.max_cat_weight)) ∧
    smoothedValue [0, 0, 5, 5, 5] = 3 ∧
    isCatPresent defaultThresholds (smoothedValue [0, 0, 5, 5, 5]) = true := by
  have hmean : ∀ samples : List ℚ,
      smoothedValue samples =
        (samples.drop (samples.length - 10)).sum /
          ((samples.drop (samples.length - 10)).length : ℚ) := by
    intro samples
    rw [smoothedValue, weightHistory_eq]
  have hscen : smoothedValue [0, 0, 5, 5, 5] = 3 := by
    norm_num [smoothedValue, weightHistory, smoothStep]
  refine ⟨fun samples => ⟨weightHistory_eq samples, hmean samples⟩, ?_, hscen, ?_⟩
  · intro th w
    simp [isCatPresent]
  · rw [hscen]
    norm_num [isCatPresent, defaultThresholds]

/-! ## C8 — health alert thresholds and severities -/

/-- C8: a windowed-metric sample strictly above its threshold creates
exactly one alert and a sample at or below it creates none; the severity
table sends the capacity and thermal kinds to critical, the load and
memory kinds to warning, and every other kind to info; and in the
concrete scenario a CPU sample of 85 against threshold 80 yields exactly
one warning alert while a subsequent sample of 50 yields none. -/
theorem C8_alert_severity :
    (∀ (v threshold : ℚ) (t : String),
       threshold < v → metricAlert (some v) threshold t = [mkAlert t]) ∧
    (∀ (v threshold : ℚ) (t : String),
       v ≤ threshold → metricAlert (some v) threshold t = []) ∧
    (severityOf "high_disk_usage" = Severity.critical ∧
     severityOf "high_temperature" = Severity.critical ∧
     severityOf "high_cpu_usage" = Severity.warning ∧
     severityOf "high_memory_usage" = Severity.warning) ∧
    (∀ t : String,
       t ≠ "high_temperature" → t ≠ "high_disk_usage" →
       t ≠ "high_cpu_usage" → t ≠ "high_memory_usage" →
       severityOf t = Severity.info) ∧
    checkThresholds defaultHealthThresholds
        ⟨some 85, none, none, none, 0, 0⟩ =
      [{ type := "high_cpu_usage", severity := Severity.warning }] ∧
    checkThresholds defaultHealthThresholds
        ⟨some 50, none, none, none, 0, 0⟩ = [] := by
  refine ⟨?_, ?_, ?_, ?_, ?_, ?_⟩
  · intro v threshold t h
    unfold metricAlert
    dsimp only
    rw [if_pos h]
  · intro v threshold t h
    unfold metricAlert
    dsimp only
    rw [if_neg (not_lt.mpr h)]
  · refine ⟨by decide, by decide, by decide, by decide⟩
  · intro t h1 h2 h3 h4
    unfold severityOf
    rw [if_neg (by simp [h1, h2]), if_neg (by simp [h3, h4])]
  · decide
  · decide

/-- Witness for `C8_alert_severity` at concrete inputs. -/
theorem C8_alert_severity_witness :
    metricAlert (some (85 : ℚ)) 80 "high_cpu_usage" =
      [mkAlert "high_cpu_usage"] ∧
    metricAlert (some (50 : ℚ)) 80 "high_cpu_usage" = [] ∧
    severityOf "large_database" = Severity.info := by
  refine ⟨?_, ?_, ?_⟩
  · exact C8_alert_severity.1 85 80 "high_cpu_usage" (by norm_num)
  · exact C8_alert_severity.2.1 50 80 "high_cpu_usage" (by norm_num)
  · exact C8_alert_severity.2.2.2.1 "large_database" (by decide) (by decide)
      (by decide) (by decide)

/-! ## C9 — isolation of metric-collection failures -/

/-- C9, counterexample.  The claim states that a failure collecting any
one metric does not prevent collection of the others in the same pass.
But only the temperature read is individually guarded: when the memory
collector fails, the disk and temperature collectors are never reached,
even though both would succeed. -/
theorem C9_counterexample :
    collectMetrics (some 10) none (some 20) (some 30) =
      [MetricKind.cpu_usage] ∧
    MetricKind.disk_usage ∉ collectMetrics (some 10) none (some 20) (some 30) := by
  decide

/-- C9, amended: only a temperature failure is isolated — the other three
metrics are still collected in that pass.  A failure of the cpu, memory
or disk collector aborts the remainder of the pass: the metrics collected
before the failing one are kept, every later one is skipped. -/
theorem C9_amended :
    (∀ c m d : ℚ,
       collectMetrics (some c) (some m) (some d) none =
         [MetricKind.cpu_usage, MetricKind.memory_usage,
          MetricKind.disk_usage]) ∧
    (∀ m d t : Option ℚ, collectMetrics none m d t = []) ∧
    (∀ (c : ℚ) (d t : Option ℚ),
       collectMetrics (some c) none d t = [MetricKind.cpu_usage]) ∧
    (∀ (c m : ℚ) (t : Option ℚ),
       collectMetrics (some c) (some m) none t =
         [MetricKind.cpu_usage, MetricKind.memory_usage]) :=
  ⟨fun _ _ _ => rfl, fun _ _ _ => rfl, fun _ _ _ => rfl, fun _ _ _ => rfl⟩

/-! ## C10 — dispense-time clamping caps the dispensed quantity -/

/-- C10: with the default parameters (10 g/s, clamp [0.5 s, 5 s]) the
actuator run time is the requested portion divided by the rate, clamped
into the configured band; consequently every portion above 50 g runs the
actuator for exactly 5 s and dispenses only 50 g, strictly less than
requested, while the feed is still reported as the full requested portion
(the dispensed outcome carries `portion_grams`). -/
theorem C10_dispense_cap :
    (∀ portion : ℚ,
       defaultDispense.min_dispense_time ≤
           dispenseTime defaultDispense portion ∧
       dispenseTime defaultDispense portion ≤
           defaultDispense.max_dispense_time) ∧
    (∀ portion : ℚ,
       defaultDispense.min_dispense_time ≤
         portion / defaultDispense.portion_grams_per_second →
       portion / defaultDispense.portion_grams_per_second ≤
         defaultDispense.max_dispense_time →
       dispenseTime defaultDispense portion =
         portion / defaultDispense.portion_grams_per_second) ∧
    (∀ portion : ℚ, 50 < portion →
       dispenseTime defaultDispense portion = 5 ∧
       actualGramsDispensed defaultDispense portion = 50 ∧
       actualGramsDispensed defaultDispense portion < portion) ∧
    (∀ (cfg : SafetyConfig) (s : FeederState) (now : Timestamp) (portion : ℚ),
       ¬ cfg.max_portion_grams < portion →
       (shouldFeed cfg s now).1 = true →
       (tryFeed cfg s now portion true).outcome =
         FeedOutcome.dispensed portion) := by
  refine ⟨?_, ?_, ?_, ?_⟩
  · intro portion
    exact ⟨le_max_left _ _, max_le (by norm_num [defaultDispense])
      (min_le_left _ _)⟩
  · intro portion h1 h2
    unfold dispenseTime
    rw [min_eq_right h2, max_eq_right h1]
  · intro portion h
    have ht : dispenseTime defaultDispense portion = 5 := by
      have h5 : (5 : ℚ) ≤ portion / 10 := by
        rw [le_div_iff₀ (by norm_num)]
        linarith
      unfold dispenseTime defaultDispense
      dsimp only
      rw [min_eq_left h5]
      norm_num
    refine ⟨ht, ?_, ?_⟩
    · unfold actualGramsDispensed
      rw [ht]
      norm_num [defaultDispense]
    · unfold actualGramsDispensed
      rw [ht]
      norm_num [defaultDispense]
      linarith
  · intro cfg s now portion hp happroved
    have key : tryFeed cfg s now portion true =
        { outcome := FeedOutcome.dispensed portion, actuatorInvoked := true,
          state := { (shouldFeed cfg s now).2 with
                       last_feeding_time := some now.minutes,
                       daily_feeding_count :=
                         (shouldFeed cfg s now).2.daily_feeding_count + 1 } } := by
      simp [tryFeed, feedCat, happroved, hp]
    rw [key]

/-- Witness for `C10_dispense_cap` at a concrete input (60 g > 50 g). -/
theorem C10_dispense_cap_witness :
    dispenseTime defaultDispense 60 = 5 ∧
    actualGramsDispensed defaultDispense 60 = 50 ∧
    actualGramsDispensed defaultDispense 60 < 60 ∧
    (tryFeed defaultSafety initState ⟨5, 1000⟩ 60 true).outcome =
      FeedOutcome.dispensed 60 := by
  have h := C10_dispense_cap.2.2.1 60 (by norm_num)
  exact ⟨h.1, h.2.1, h.2.2, C10_dispense_cap.2.2.2 defaultSafety initState
    ⟨5, 1000⟩ 60 (by decide) (by decide)⟩

end HomeFeeder

